import Mathlib

/-!
Verification of the bulk Solana transfer tools against their specification.

The repository holds three programs:
* `bulk-sol-transfer.go` — the Go bulk-transfer tool (`Bulk` namespace here):
  `executeTransfer` runs one transfer end to end and `main` aggregates.
* the Rust multi-wallet CLI embedded in `solana-geyser-subscription.go`
  (`Cli` namespace here): `execute_transfers` fans out
  `execute_single_transfer` tasks and `main` prints a summary.
* the Go geyser-subscription sender (only its key handling is modelled,
  in the `Geyser` namespace).

External library calls (base64 decoding, base58 address parsing, RPC calls,
keypair file loading) are modelled by an environment record holding the
result each call would return; Go/Rust runtime panics are modelled
explicitly (`crashed` / `Except.error` carrying the panic message), and the
unbounded Go confirmation-poll loop is modelled with fuel, `fuelOut`
standing for a loop still running after `fuel` iterations.
-/

namespace Bulk

/-- One entry of `config.Transfers` (struct `TransferInstruction`). -/
structure TransferInstruction where
  fromPrivateKey : String
  toAddress : String
  amount : Nat
deriving DecidableEq, Repr

/-- Struct `TransferResult` of bulk-sol-transfer.go.  Go zero values: empty
strings, 0 duration, nil error. -/
structure TransferResult where
  fromAccount : String
  toAccount : String
  amount : Nat
  signature : String
  status : String
  processingTime : Nat
  error : Option String
deriving DecidableEq, Repr

/-- The network calls `executeTransfer` can make on the RPC client. -/
inductive NetCall where
  | getRecentBlockhash
  | sendTransaction
  | getSignatureStatuses
deriving DecidableEq, Repr

/-- Results of the external calls `executeTransfer` makes, plus the
durations of the blocking ones.  `pollStatus k` is the result of the
`k`-th `GetSignatureStatuses` call: `.ok none` means the status is absent,
`.ok (some none)` confirmed, `.ok (some (some e))` an on-chain error `e`,
and `.error e` a failed query.  `pubkeyOf` is the public key the library
derives from decoded private-key bytes (garbage when the length is off,
which the code does not check). -/
structure Env where
  decodeKeyResult : Except String (List Nat)
  pubkeyOf : List Nat → String
  parseAddrResult : Except String String
  blockhashResult : Except String String
  newTxResult : Except String Unit
  signResult : Except String Unit
  sendResult : Except String String
  pollStatus : Nat → Except String (Option (Option String))
  dBlockhash : Nat
  dSend : Nat
  dStatus : Nat

/-- Outcome of one `executeTransfer` goroutine: a Go runtime panic (which
kills the whole process), a poll loop still spinning after the given fuel,
or a `TransferResult` sent on the results channel together with the list
of network calls made and the wall-clock time elapsed at the send. -/
inductive RunResult where
  | crashed (msg : String)
  | fuelOut
  | done (res : TransferResult) (calls : List NetCall) (elapsed : Nat)
deriving DecidableEq, Repr

/-- `TransferResult{Amount: transfer.Amount}` — the zero-valued result the
worker starts from. -/
def initResult (amount : Nat) : TransferResult :=
  { fromAccount := "", toAccount := "", amount := amount, signature := "",
    status := "", processingTime := 0, error := none }

/-- The `for { ... GetSignatureStatuses ... }` confirmation loop of
`executeTransfer` (bulk-sol-transfer.go lines 144–167).  The Go loop has no
retry budget; `fuel` bounds the model only, `none` meaning the loop is
still running after `fuel` status queries.  On a query error the function
returns without setting `ProcessingTime`; on a present status it breaks and
line 169 sets `ProcessingTime = time.Since(startTime)`. -/
def pollLoop (env : Env) (res : TransferResult) (calls : List NetCall)
    (k t : Nat) : Nat → Option (TransferResult × List NetCall × Nat)
  | 0 => none
  | fuel + 1 =>
    let calls2 := calls ++ [NetCall.getSignatureStatuses]
    let t2 := t + env.dStatus
    match env.pollStatus k with
    | .error e =>
        some ({ res with error := some ("failed to get transaction status: " ++ e) },
              calls2, t2)
    | .ok none => pollLoop env res calls2 (k + 1) (t2 + 500) fuel
    | .ok (some none) =>
        some ({ res with status := "Confirmed", processingTime := t2 }, calls2, t2)
    | .ok (some (some msg)) =>
        some ({ res with status := "Failed",
                         error := some ("transaction failed: " ++ msg),
                         processingTime := t2 }, calls2, t2)

/-- `executeTransfer` of bulk-sol-transfer.go (lines 55–171).  The key-byte
length checks mirror the library semantics the code relies on without
checking: `solana.PrivateKey.PublicKey` slices `priv[32:]` (crypto/ed25519),
panicking when fewer than 32 bytes were decoded, and `ed25519.Sign` panics
inside `tx.Sign` when the key is not exactly 64 bytes. -/
def executeTransfer (env : Env) (tr : TransferInstruction) (fuel : Nat) :
    RunResult :=
  let res := initResult tr.amount
  match env.decodeKeyResult with
  | .error e =>
      .done { res with error := some ("failed to decode private key: " ++ e) } [] 0
  | .ok keyBytes =>
    if keyBytes.length < 32 then
      .crashed "runtime error: slice bounds out of range"
    else
      let res := { res with fromAccount := env.pubkeyOf keyBytes }
      match env.parseAddrResult with
      | .error e =>
          .done { res with error := some ("invalid destination address: " ++ e) } [] 0
      | .ok dest =>
        let res := { res with toAccount := dest }
        match env.blockhashResult with
        | .error e =>
            .done { res with error := some ("failed to get recent blockhash: " ++ e) }
              [NetCall.getRecentBlockhash] env.dBlockhash
        | .ok _ =>
          match env.newTxResult with
          | .error e =>
              .done { res with error := some ("failed to create transaction: " ++ e) }
                [NetCall.getRecentBlockhash] env.dBlockhash
          | .ok _ =>
            if keyBytes.length = 64 then
              match env.signResult with
              | .error e =>
                  .done { res with error := some ("failed to sign transaction: " ++ e) }
                    [NetCall.getRecentBlockhash] env.dBlockhash
              | .ok _ =>
                match env.sendResult with
                | .error e =>
                    .done { res with error := some ("failed to send transaction: " ++ e) }
                      [NetCall.getRecentBlockhash, NetCall.sendTransaction]
                      (env.dBlockhash + env.dSend)
                | .ok sig =>
                  let res := { res with signature := sig }
                  match pollLoop env res
                      [NetCall.getRecentBlockhash, NetCall.sendTransaction]
                      0 (env.dBlockhash + env.dSend) fuel with
                  | none => .fuelOut
                  | some (res2, calls, t) => .done res2 calls t
            else
              .crashed "ed25519: bad private key length"

/-- The fan-out of `main`: one `executeTransfer` goroutine per entry of
`config.Transfers`, worker `i` interacting with the network through
`envs i`. -/
def runAll (envs : Nat → Env) (trs : List TransferInstruction) (fuel : Nat) :
    List RunResult :=
  (List.range trs.length).map fun i =>
    executeTransfer (envs i) (trs.getD i ⟨"", "", 0⟩) fuel

/-- The result-channel collection loop of `main`: it yields the list of all
sent results once every worker has sent one (`wg.Wait` then channel close);
if any worker panicked the process is dead, and if any worker is still
polling the wait never finishes — both modelled as `none`. -/
def collectResults : List RunResult → Option (List TransferResult)
  | [] => some []
  | RunResult.done r _ _ :: rest => (collectResults rest).map (r :: ·)
  | RunResult.crashed _ :: _ => none
  | RunResult.fuelOut :: _ => none

/-- Go integer division, which panics on a zero divisor. -/
def goDiv (a b : Nat) : Except String Nat :=
  if b = 0 then .error "runtime error: integer divide by zero" else .ok (a / b)

/-- `totalProcessingTime` accumulated by the collection loop of `main`. -/
def totalProcessingTime (results : List TransferResult) : Nat :=
  results.foldl (fun acc r => acc + r.processingTime) 0

/-- `failCount` accumulated by the collection loop of `main`: the number of
results whose `Error` field is non-nil. -/
def failCount (results : List TransferResult) : Nat :=
  (results.filter (fun r => r.error.isSome)).length

/-- `avgProcessingTime := totalProcessingTime / time.Duration(len(config.Transfers))`
(bulk-sol-transfer.go line 244) — computed unconditionally, before the
exit-code decision. -/
def avgProcessingTime (results : List TransferResult) (nTransfers : Nat) :
    Except String Nat :=
  goDiv (totalProcessingTime results) nTransfers

/-- The tail of `main` (lines 242–260): compute the average (panicking when
the transfer list is empty), then exit 1 when `failCount > 0` and fall off
`main` (exit 0) otherwise. -/
def mainExit (nTransfers : Nat) (results : List TransferResult) :
    Except String Nat :=
  match avgProcessingTime results nTransfers with
  | .error e => .error e
  | .ok _ => .ok (if failCount results > 0 then 1 else 0)

end Bulk

namespace Cli

/-- One entry of `from_wallets` / `to_wallets` (struct `WalletInfo`). -/
structure WalletInfo where
  address : String
  keypair_path : Option String
deriving DecidableEq, Repr

/-- Struct `WalletConfig` of the multi-wallet CLI. -/
structure WalletConfig where
  from_wallets : List WalletInfo
  to_wallets : List WalletInfo
deriving DecidableEq, Repr

/-- Struct `TransferResult` of the multi-wallet CLI (`from`/`to` renamed to
`fromAddr`/`toAddr`, `from` being reserved in Lean). -/
structure TransferResult where
  fromAddr : String
  toAddr : String
  signature : String
  success : Bool
  processing_time : Nat
deriving DecidableEq, Repr

/-- Results of the external calls one `execute_single_transfer` task makes,
plus the durations of the blocking ones.  `pollStatus k` is the result of
the `k`-th `get_signature_status` call: `.ok none` means not yet processed,
`.ok (some true)` a status with `is_ok()`, `.ok (some false)` a failed
status, `.error e` a failed query.  `readKeypair` yields the public key of
the keypair loaded from the file. -/
structure Env where
  readKeypair : Except String String
  parseFrom : Except String String
  parseTo : Except String String
  blockhash : Except String String
  send : Except String String
  pollStatus : Nat → Except String (Option Bool)
  dBlockhash : Nat
  dSend : Nat
  dStatus : Nat

/-- Outcome of the bounded `for _ in 0..max_retries` confirmation loop. -/
inductive PollOut where
  | confirmedOk
  | exhausted
  | failedStatus
  | queryError (msg : String)
deriving DecidableEq, Repr

/-- The confirmation loop of `execute_single_transfer` (lines 484–505):
at most `remaining` status queries, sleeping 500 ms after each absent
status.  Returns the outcome, the total number of queries made, and the
clock after the loop. -/
def pollLoop (env : Env) (k remaining q t : Nat) : PollOut × Nat × Nat :=
  match remaining with
  | 0 => (.exhausted, q, t)
  | r + 1 =>
    let q2 := q + 1
    let t2 := t + env.dStatus
    match env.pollStatus k with
    | .ok (some true) => (.confirmedOk, q2, t2)
    | .ok (some false) => (.failedStatus, q2, t2)
    | .ok none => pollLoop env (k + 1) r q2 (t2 + 500)
    | .error e => (.queryError e, q2, t2)

/-- `execute_single_transfer` (lines 438–514).  Returns the Rust function
result — `Ok((signature, processing_time))` or an error string — paired
with the number of status queries made.  `processing_time` is
`start_time.elapsed()`, measured only on the success path. -/
def execute_single_transfer (env : Env) : Except String (String × Nat) × Nat :=
  match env.readKeypair with
  | .error e => (.error ("Failed to read keypair file: " ++ e), 0)
  | .ok kpPub =>
  match env.parseFrom with
  | .error e => (.error ("Invalid from address: " ++ e), 0)
  | .ok fromPk =>
  match env.parseTo with
  | .error e => (.error ("Invalid to address: " ++ e), 0)
  | .ok _toPk =>
  if kpPub ≠ fromPk then
    (.error "Keypair public key does not match the specified from address", 0)
  else
  match env.blockhash with
  | .error e => (.error e, 0)
  | .ok _bh =>
  match env.send with
  | .error e => (.error e, 0)
  | .ok sig =>
    let max_retries := 20
    match pollLoop env 0 max_retries 0 (env.dBlockhash + env.dSend) with
    | (.confirmedOk, q, t) => (.ok (sig, t), q)
    | (.exhausted, q, _) => (.error "Transaction confirmation timed out", q)
    | (.failedStatus, q, _) => (.error "Transaction failed with status", q)
    | (.queryError e, q, _) => (.error ("Failed to get transaction status: " ++ e), q)

/-- The destination-wallet selection of `execute_transfers` (lines 379–383):
`if i < to_wallets.len() { &to_wallets[i] } else { &to_wallets[0] }`;
`none` models the index-out-of-bounds panic of `to_wallets[0]` on an empty
list. -/
def pickDest (to_wallets : List WalletInfo) (i : Nat) : Option WalletInfo :=
  if i < to_wallets.length then to_wallets[i]? else to_wallets[0]?

/-- One spawned transfer task: the source index (used to select the task
environment), the keypair path, and the source and destination addresses. -/
structure Task where
  idx : Nat
  keypairPath : String
  fromAddr : String
  toAddr : String
deriving DecidableEq, Repr

/-- The task-construction loop of `execute_transfers` (lines 377–428):
for each source wallet, pick the destination (panicking — `.error` — when
`to_wallets` is empty and the fallback indexes it), then skip the wallet
with `continue` when it has no keypair path, otherwise spawn a task. -/
def buildTasks (froms to_wallets : List WalletInfo) (i : Nat) :
    Except String (List Task) :=
  match froms with
  | [] => .ok []
  | w :: rest =>
    match pickDest to_wallets i with
    | none => .error "index out of bounds: the len is 0 but the index is 0"
    | some dst =>
      match w.keypair_path with
      | none => buildTasks rest to_wallets (i + 1)
      | some path =>
        match buildTasks rest to_wallets (i + 1) with
        | .error e => .error e
        | .ok ts => .ok ({ idx := i, keypairPath := path,
                           fromAddr := w.address, toAddr := dst.address } :: ts)

/-- The result a joined task contributes (lines 407–426): on success a
`TransferResult` with the measured time, on error one with signature
`"FAILED"`, `success = false` and a zero `processing_time`. -/
def runTask (envs : Nat → Env) (t : Task) : TransferResult :=
  match (execute_single_transfer (envs t.idx)).1 with
  | .ok (sig, pt) =>
      { fromAddr := t.fromAddr, toAddr := t.toAddr, signature := sig,
        success := true, processing_time := pt }
  | .error _ =>
      { fromAddr := t.fromAddr, toAddr := t.toAddr, signature := "FAILED",
        success := false, processing_time := 0 }

/-- `execute_transfers` (lines 370–436): build the task list (an `.error`
is the pairing panic aborting the process), run every task and join. -/
def execute_transfers (envs : Nat → Env) (cfg : WalletConfig) :
    Except String (List TransferResult) :=
  match buildTasks cfg.from_wallets cfg.to_wallets 0 with
  | .error e => .error e
  | .ok tasks => .ok (tasks.map (runTask envs))

/-- The average-time computation of `main` (lines 362–365): guarded by
`!results.is_empty()`, `none` when the result list is empty. -/
def avg_time (results : List TransferResult) : Option Nat :=
  if results.isEmpty then none
  else some ((results.foldl (fun acc r => acc + r.processing_time) 0) / results.length)

/-- The exit behaviour of the CLI `main` (lines 329–367): after
`execute_transfers` returns, the summary is printed and `main` returns
`Ok(())` — process exit code 0 — regardless of per-transfer failures.
`.error` is the pairing panic, which aborts with a non-zero code. -/
def mainExit (envs : Nat → Env) (cfg : WalletConfig) : Except String Nat :=
  match execute_transfers envs cfg with
  | .error e => .error e
  | .ok _results => .ok 0

end Cli

namespace Geyser

/-- The key preparation of `sendTransaction` in solana-geyser-subscription.go
(lines 137–140): `ed25519.NewKeyFromSeed(privateKeyBytes[:32])` — the slice
panics when fewer than 32 bytes were decoded; no length validation exists. -/
def keyPrep (privateKeyBytes : List Nat) : Except String (List Nat) :=
  if privateKeyBytes.length < 32 then
    .error "runtime error: slice bounds out of range"
  else
    .ok (privateKeyBytes.take 32)

end Geyser

namespace Bulk

/-- On a gateway whose status query always reports the signature absent,
the confirmation loop of `executeTransfer` never returns, whatever fuel it
is given. -/
theorem pollLoop_absent (env : Env) (h : ∀ j, env.pollStatus j = .ok none) :
    ∀ fuel res calls k t, pollLoop env res calls k t fuel = none := by
  intro fuel
  induction fuel with
  | zero => intro res calls k t; rfl
  | succ n ih =>
      intro res calls k t
      simp only [pollLoop, h k]
      exact ih res _ (k + 1) _

/-- Any result the confirmation loop hands back from a zeroed entry state
is Confirmed with the elapsed time recorded, Failed (on-chain error) with
the elapsed time recorded, or a status-query failure with status and
processing time still zero. -/
theorem pollLoop_spec (env : Env) (res : TransferResult)
    (hst : res.status = "") (herr : res.error = none)
    (hpt : res.processingTime = 0) :
    ∀ fuel calls k t r c t2, pollLoop env res calls k t fuel = some (r, c, t2) →
      (r.status = "Confirmed" ∧ r.error = none ∧ r.processingTime = t2) ∨
      (r.status = "Failed" ∧ (∃ m, r.error = some m) ∧ r.processingTime = t2) ∨
      (r.status = "" ∧ (∃ m, r.error = some m) ∧ r.processingTime = 0) := by
  intro fuel
  induction fuel with
  | zero => intro calls k t r c t2 h; simp [pollLoop] at h
  | succ n ih =>
      intro calls k t r c t2 h
      simp only [pollLoop] at h
      cases hq : env.pollStatus k with
      | error e =>
          rw [hq] at h
          simp only [Option.some.injEq, Prod.mk.injEq] at h
          obtain ⟨hr, _, _⟩ := h
          subst hr
          exact Or.inr (Or.inr ⟨hst, ⟨_, rfl⟩, hpt⟩)
      | ok s =>
          cases s with
          | none =>
              rw [hq] at h
              exact ih _ (k + 1) _ r c t2 h
          | some s2 =>
              cases s2 with
              | none =>
                  rw [hq] at h
                  simp only [Option.some.injEq, Prod.mk.injEq] at h
                  obtain ⟨hr, _, ht⟩ := h
                  subst hr
                  exact Or.inl ⟨rfl, herr, ht⟩
              | some msg =>
                  rw [hq] at h
                  simp only [Option.some.injEq, Prod.mk.injEq] at h
                  obtain ⟨hr, _, ht⟩ := h
                  subst hr
                  exact Or.inr (Or.inl ⟨rfl, ⟨_, rfl⟩, ht⟩)

/-- Every `TransferResult` a bulk worker sends is either Confirmed with no
error and the measured elapsed time, Failed (on-chain rejection) with an
error and the measured elapsed time, or an early failure whose status and
processing time are still their zero values while the error is set. -/
theorem executeTransfer_done_spec (env : Env) (tr : TransferInstruction)
    (fuel : Nat) (r : TransferResult) (calls : List NetCall) (el : Nat)
    (h : executeTransfer env tr fuel = .done r calls el) :
    (r.status = "Confirmed" ∧ r.error = none ∧ r.processingTime = el) ∨
    (r.status = "Failed" ∧ (∃ m, r.error = some m) ∧ r.processingTime = el) ∨
    (r.status = "" ∧ (∃ m, r.error = some m) ∧ r.processingTime = 0) := by
  simp only [executeTransfer] at h
  split at h
  · cases h
    exact Or.inr (Or.inr ⟨rfl, ⟨_, rfl⟩, rfl⟩)
  · split at h
    · cases h
    · split at h
      · cases h
        exact Or.inr (Or.inr ⟨rfl, ⟨_, rfl⟩, rfl⟩)
      · split at h
        · cases h
          exact Or.inr (Or.inr ⟨rfl, ⟨_, rfl⟩, rfl⟩)
        · split at h
          · cases h
            exact Or.inr (Or.inr ⟨rfl, ⟨_, rfl⟩, rfl⟩)
          · split at h
            · split at h
              · cases h
                exact Or.inr (Or.inr ⟨rfl, ⟨_, rfl⟩, rfl⟩)
              · split at h
                · cases h
                  exact Or.inr (Or.inr ⟨rfl, ⟨_, rfl⟩, rfl⟩)
                · split at h
                  · cases h
                  · rename_i hpoll
                    cases h
                    exact pollLoop_spec env _ rfl rfl rfl fuel _ 0 _ _ _ _ hpoll
            · cases h

/-- When the key decodes, the address parses, blockhash fetch, transaction
build, signing and submission succeed, and every status query reports the
signature absent, a bulk worker never sends a result: whatever fuel the
model grants the loop, it is still polling. -/
theorem executeTransfer_absent_spins (env : Env) (tr : TransferInstruction)
    (keyBytes : List Nat) (sig : String)
    (hdec : env.decodeKeyResult = .ok keyBytes) (hlen : keyBytes.length = 64)
    (haddr : ∃ d, env.parseAddrResult = .ok d)
    (hbh : ∃ b, env.blockhashResult = .ok b)
    (htx : env.newTxResult = .ok ())
    (hsign : env.signResult = .ok ())
    (hsend : env.sendResult = .ok sig)
    (habs : ∀ j, env.pollStatus j = .ok none) :
    ∀ fuel, executeTransfer env tr fuel = .fuelOut := by
  intro fuel
  obtain ⟨d, haddr⟩ := haddr
  obtain ⟨b, hbh⟩ := hbh
  simp only [executeTransfer, hdec, hlen, haddr, hbh, htx, hsign, hsend,
    pollLoop_absent env habs]
  norm_num

/-- The fan-out spawns exactly one worker per configured transfer. -/
theorem runAll_length (envs : Nat → Env) (trs : List TransferInstruction)
    (fuel : Nat) : (runAll envs trs fuel).length = trs.length := by
  simp [runAll]

/-- Every run in the fan-out is the execution of the worker at some index. -/
theorem runAll_mem (envs : Nat → Env) (trs : List TransferInstruction)
    (fuel : Nat) (run : RunResult) (h : run ∈ runAll envs trs fuel) :
    ∃ i, i < trs.length ∧
      run = executeTransfer (envs i) (trs.getD i ⟨"", "", 0⟩) fuel := by
  simp only [runAll, List.mem_map, List.mem_range] at h
  obtain ⟨i, hi, hrun⟩ := h
  exact ⟨i, hi, hrun.symm⟩

/-- When every worker sends a result, the collection loop gathers exactly
one result per worker. -/
theorem collectResults_of_done (runs : List RunResult)
    (h : ∀ run ∈ runs, ∃ r c e, run = RunResult.done r c e) :
    ∃ rs, collectResults runs = some rs ∧ rs.length = runs.length := by
  induction runs with
  | nil => exact ⟨[], rfl, rfl⟩
  | cons run rest ih =>
      obtain ⟨r, c, e, hrun⟩ := h run (List.mem_cons_self _ _)
      subst hrun
      obtain ⟨rs, hrs, hlen⟩ := ih (fun x hx => h x (List.mem_cons_of_mem _ hx))
      exact ⟨r :: rs, by simp [collectResults, hrs], by simp [hlen]⟩

/-- Every collected result was sent by some worker in the run list. -/
theorem collectResults_mem (runs : List RunResult) (rs : List TransferResult)
    (h : collectResults runs = some rs) :
    ∀ r ∈ rs, ∃ c e, RunResult.done r c e ∈ runs := by
  induction runs generalizing rs with
  | nil =>
      simp only [collectResults, Option.some.injEq] at h
      subst h
      intro r hr
      cases hr
  | cons run rest ih =>
      cases run with
      | crashed m => simp [collectResults] at h
      | fuelOut => simp [collectResults] at h
      | done r0 c0 e0 =>
          simp only [collectResults, Option.map_eq_some'] at h
          obtain ⟨rs0, hrs0, hrs⟩ := h
          subst hrs
          intro r hr
          rcases List.mem_cons.mp hr with hr | hr
          · subst hr
            exact ⟨c0, e0, List.mem_cons_self _ _⟩
          · obtain ⟨c, e, hm⟩ := ih rs0 hrs0 r hr
            exact ⟨c, e, List.mem_cons_of_mem _ hm⟩

/-- `failCount` is zero exactly when no collected result carries an error. -/
theorem failCount_eq_zero_iff (rs : List TransferResult) :
    failCount rs = 0 ↔ ∀ r ∈ rs, r.error = none := by
  simp only [failCount, List.length_eq_zero, List.filter_eq_nil_iff]
  constructor
  · intro h r hr
    have := h r hr
    cases herr : r.error with
    | none => rfl
    | some m => rw [herr] at this; simp at this
  · intro h r hr
    rw [h r hr]
    simp

end Bulk

namespace Cli

/-- Within the destination list, the i-th source is paired with the i-th
destination. -/
theorem pickDest_of_lt (to_wallets : List WalletInfo) (i : Nat)
    (h : i < to_wallets.length) :
    pickDest to_wallets i = some (to_wallets.get ⟨i, h⟩) := by
  simp [pickDest, h, List.getElem?_eq_getElem]

/-- Beyond a non-empty destination list, every source is paired with the
first destination. -/
theorem pickDest_of_ge (to_wallets : List WalletInfo) (i : Nat)
    (hne : to_wallets ≠ []) (h : to_wallets.length ≤ i) :
    pickDest to_wallets i = to_wallets.head? := by
  cases to_wallets with
  | nil => exact absurd rfl hne
  | cons w ws =>
      have hlt : ¬ i < (w :: ws).length := Nat.not_lt.mpr h
      rw [pickDest, if_neg hlt]
      simp

/-- On a non-empty destination list the selection never panics. -/
theorem pickDest_isSome (to_wallets : List WalletInfo) (i : Nat)
    (hne : to_wallets ≠ []) : ∃ w, pickDest to_wallets i = some w := by
  by_cases h : i < to_wallets.length
  · exact ⟨_, pickDest_of_lt to_wallets i h⟩
  · rw [pickDest_of_ge to_wallets i hne (Nat.not_lt.mp h)]
    cases to_wallets with
    | nil => exact absurd rfl hne
    | cons w ws => exact ⟨w, rfl⟩

/-- With a non-empty destination list, the task loop builds exactly one
task per source wallet that carries a keypair path — sources without one
are skipped by `continue` and contribute nothing. -/
theorem buildTasks_length (to_wallets : List WalletInfo)
    (hne : to_wallets ≠ []) :
    ∀ (froms : List WalletInfo) (i : Nat), ∃ ts,
      buildTasks froms to_wallets i = .ok ts ∧
      ts.length = (froms.filter (fun w => w.keypair_path.isSome)).length := by
  intro froms
  induction froms with
  | nil => exact fun i => ⟨[], rfl, rfl⟩
  | cons w rest ih =>
      intro i
      obtain ⟨dst, hdst⟩ := pickDest_isSome to_wallets i hne
      obtain ⟨ts, hts, hlen⟩ := ih (i + 1)
      cases hk : w.keypair_path with
      | none =>
          refine ⟨ts, ?_, ?_⟩
          · simp only [buildTasks, hdst, hk]
            exact hts
          · simpa [List.filter, hk] using hlen
      | some path =>
          refine ⟨{ idx := i, keypairPath := path, fromAddr := w.address,
                    toAddr := dst.address } :: ts, ?_, ?_⟩
          · simp only [buildTasks, hdst, hk, hts]
          · simpa [List.filter, hk] using congrArg Nat.succ hlen

/-- With at least one source wallet and an empty destination list, the
task loop hits `to_wallets[0]` on the empty list and panics. -/
theorem buildTasks_empty_dest (w : WalletInfo) (ws : List WalletInfo)
    (i : Nat) :
    buildTasks (w :: ws) [] i =
      .error "index out of bounds: the len is 0 but the index is 0" := by
  simp [buildTasks, pickDest]

/-- Every result of a joined task that reports failure carries the
hard-coded zero processing time. -/
theorem runTask_failure_time (envs : Nat → Env) (t : Task)
    (h : (runTask envs t).success = false) :
    (runTask envs t).processing_time = 0 := by
  unfold runTask at h ⊢
  cases hres : (execute_single_transfer (envs t.idx)).1 with
  | ok v => cases v with | mk s p => simp [hres] at h
  | error e => simp [hres]

/-- The bounded confirmation loop of the CLI, on a gateway that always
reports the transaction as not yet processed, makes exactly as many status
queries as its budget and exhausts it. -/
theorem cliPollLoop_absent (env : Env) (habs : ∀ j, env.pollStatus j = .ok none) :
    ∀ remaining k q t, ∃ t2,
      pollLoop env k remaining q t = (PollOut.exhausted, q + remaining, t2) := by
  intro remaining
  induction remaining with
  | zero => intro k q t; exact ⟨t, by simp [pollLoop]⟩
  | succ n ih =>
      intro k q t
      obtain ⟨t2, h2⟩ := ih (k + 1) (q + 1) (t + env.dStatus + 500)
      refine ⟨t2, ?_⟩
      have hq : q + 1 + n = q + (n + 1) := by omega
      simp only [pollLoop, habs k, h2, hq]

end Cli

namespace Bulk

/-- A correctly-sized (64-byte) decoded private key for demonstration
environments. -/
def demoKey : List Nat := List.replicate 64 1

/-- A demonstration transfer instruction. -/
def demoTransfer : TransferInstruction :=
  { fromPrivateKey := "key", toAddress := "addr", amount := 7 }

/-- Demonstration environment in which every external call succeeds but the
status query always reports the signature absent. -/
def envAbsent : Env :=
  { decodeKeyResult := .ok demoKey
    pubkeyOf := fun _ => "SRC"
    parseAddrResult := .ok "DEST"
    blockhashResult := .ok "HASH"
    newTxResult := .ok ()
    signResult := .ok ()
    sendResult := .ok "SIG"
    pollStatus := fun _ => .ok none
    dBlockhash := 10
    dSend := 20
    dStatus := 5 }

/-- Demonstration environment in which the first status query confirms. -/
def envConfirm : Env := { envAbsent with pollStatus := fun _ => .ok (some none) }

/-- Demonstration environment in which the blockhash fetch fails after its
network round trip. -/
def envBlockhashFail : Env := { envAbsent with blockhashResult := .error "boom" }

/-- Demonstration environment in which the private key is not valid base64. -/
def envBadKey : Env :=
  { envAbsent with decodeKeyResult := .error "illegal base64 data" }

/-- Demonstration environment in which the destination address does not
parse. -/
def envBadAddr : Env :=
  { envAbsent with parseAddrResult := .error "invalid base58 digit" }

/-- Demonstration environment in which the key is valid base64 but decodes
to only 10 bytes — a wrong keypair length. -/
def envShortKey : Env :=
  { envAbsent with decodeKeyResult := .ok (List.replicate 10 0) }

/-- The result `envConfirm` makes a worker send. -/
def confirmedResult : TransferResult :=
  { fromAccount := "SRC", toAccount := "DEST", amount := 7, signature := "SIG",
    status := "Confirmed", processingTime := 35, error := none }

/-- The result `envBlockhashFail` makes a worker send: the error is set but
the processing time keeps its zero value although the fetch took 10 ms. -/
def bhFailResult : TransferResult :=
  { fromAccount := "SRC", toAccount := "DEST", amount := 7, signature := "",
    status := "", processingTime := 0,
    error := some "failed to get recent blockhash: boom" }

/-- Boolean test that a worker run ended with a sent result. -/
def RunResult.isDone : RunResult → Bool
  | RunResult.done _ _ _ => true
  | _ => false

/-- A run is `isDone` exactly when it is a sent result. -/
theorem isDone_iff (run : RunResult) :
    run.isDone = true ↔ ∃ r c e, run = RunResult.done r c e := by
  cases run with
  | crashed m => simp [RunResult.isDone]
  | fuelOut => simp [RunResult.isDone]
  | done r c e => simp [RunResult.isDone]

/-- Boolean test that a worker run is a result that failed before any
network call: the error is set, status and signature keep their zero
values, and the list of RPC calls made is empty. -/
def precursorFailedNoNet : RunResult → Bool
  | RunResult.done r calls _ =>
      r.error.isSome && (r.status == "") && (r.signature == "") && calls.isEmpty
  | _ => false

/-- A sent result carries no error exactly when its status is Confirmed. -/
theorem done_error_iff_confirmed (env : Env) (tr : TransferInstruction)
    (fuel : Nat) (r : TransferResult) (calls : List NetCall) (el : Nat)
    (h : executeTransfer env tr fuel = .done r calls el) :
    r.error = none ↔ r.status = "Confirmed" := by
  rcases executeTransfer_done_spec env tr fuel r calls el h with
    ⟨h1, h2, _⟩ | ⟨h1, ⟨m, h2⟩, _⟩ | ⟨h1, ⟨m, h2⟩, _⟩
  · exact ⟨fun _ => h1, fun _ => h2⟩
  · rw [h1, h2]
    simp
  · rw [h1, h2]
    simp

end Bulk

namespace Cli

/-- Demonstration environment: all calls succeed, the first status query
reports a successful status. -/
def envOkConfirm : Env :=
  { readKeypair := .ok "PK"
    parseFrom := .ok "PK"
    parseTo := .ok "TO"
    blockhash := .ok "HASH"
    send := .ok "SIG"
    pollStatus := fun _ => .ok (some true)
    dBlockhash := 10
    dSend := 20
    dStatus := 5 }

/-- Demonstration environment: all calls succeed, every status query
reports the transaction not yet processed. -/
def envOkAbsent : Env := { envOkConfirm with pollStatus := fun _ => .ok none }

/-- Demonstration environment: reading the keypair file fails. -/
def envKeyFail : Env := { envOkConfirm with readKeypair := .error "no such file" }

/-- One source with a keypair path, one destination. -/
def demoCfgOne : WalletConfig :=
  { from_wallets := [{ address := "A", keypair_path := some "kp" }],
    to_wallets := [{ address := "D", keypair_path := none }] }

/-- One source without a keypair path, one destination. -/
def demoCfgSkip : WalletConfig :=
  { from_wallets := [{ address := "A", keypair_path := none }],
    to_wallets := [{ address := "D", keypair_path := none }] }

/-- Three sources with keypair paths, a single destination. -/
def demoCfg3to1 : WalletConfig :=
  { from_wallets := [{ address := "A1", keypair_path := some "k1" },
                     { address := "A2", keypair_path := some "k2" },
                     { address := "A3", keypair_path := some "k3" }],
    to_wallets := [{ address := "D", keypair_path := none }] }

/-- The failure result `envKeyFail` produces for `demoCfgOne`. -/
def failedResult : TransferResult :=
  { fromAddr := "A", toAddr := "D", signature := "FAILED", success := false,
    processing_time := 0 }

/-- The success result `envOkConfirm` produces for `demoCfgOne`. -/
def successResult : TransferResult :=
  { fromAddr := "A", toAddr := "D", signature := "SIG", success := true,
    processing_time := 35 }

end Cli

/-- C1 counterexample: in the bulk variant, for a submitted transaction
whose status query always reports the signature absent, the confirmation
loop has not terminated even after 100 poll attempts — it did not stop
after 20 attempts with a TimedOut outcome, because the loop in
bulk-sol-transfer.go has no retry budget at all. -/
theorem C1_counterexample_bulk_loop_never_times_out :
    Bulk.executeTransfer Bulk.envAbsent Bulk.demoTransfer 100 =
      Bulk.RunResult.fuelOut := by
  rfl

/-- C1 (amended): only the multi-wallet CLI variant has the 20-attempt
retry budget: on an always-absent status its poll loop makes exactly 20
status queries and `execute_single_transfer` returns the
confirmation-timed-out error.  The bulk variant has no budget: whatever
bound is imposed on the model, its worker is still polling. -/
theorem C1_amended_poll_budget (benv : Bulk.Env)
    (tr : Bulk.TransferInstruction) (keyBytes : List Nat) (sig : String)
    (hdec : benv.decodeKeyResult = .ok keyBytes) (hlen : keyBytes.length = 64)
    (haddr : ∃ d, benv.parseAddrResult = .ok d)
    (hbh : ∃ b, benv.blockhashResult = .ok b)
    (htx : benv.newTxResult = .ok ()) (hsign : benv.signResult = .ok ())
    (hsend : benv.sendResult = .ok sig)
    (habs : ∀ j, benv.pollStatus j = .ok none)
    (cenv : Cli.Env) (habs2 : ∀ j, cenv.pollStatus j = .ok none)
    (hkp : ∃ p, cenv.readKeypair = .ok p ∧ cenv.parseFrom = .ok p)
    (hto : ∃ a, cenv.parseTo = .ok a) (hbh2 : ∃ b, cenv.blockhash = .ok b)
    (hsend2 : ∃ s, cenv.send = .ok s) :
    (∀ fuel, Bulk.executeTransfer benv tr fuel = Bulk.RunResult.fuelOut) ∧
    Cli.execute_single_transfer cenv =
      (.error "Transaction confirmation timed out", 20) := by
  refine ⟨Bulk.executeTransfer_absent_spins benv tr keyBytes sig hdec hlen
    haddr hbh htx hsign hsend habs, ?_⟩
  obtain ⟨p, hkp1, hkp2⟩ := hkp
  obtain ⟨a, hto⟩ := hto
  obtain ⟨b, hbh2⟩ := hbh2
  obtain ⟨s, hsend2⟩ := hsend2
  obtain ⟨t2, hpoll⟩ :=
    Cli.cliPollLoop_absent cenv habs2 20 0 0 (cenv.dBlockhash + cenv.dSend)
  simp only [Cli.execute_single_transfer, hkp1, hkp2, hto, hbh2, hsend2,
    hpoll, ne_eq, not_true_eq_false, ite_false, Nat.zero_add]

/-- C1 witness: a concrete always-absent gateway on which the bulk worker
is still polling after 33 attempts and the CLI worker times out after
exactly 20 status queries. -/
theorem C1_witness :
    Bulk.executeTransfer Bulk.envAbsent Bulk.demoTransfer 33 =
      Bulk.RunResult.fuelOut ∧
    Cli.execute_single_transfer Cli.envOkAbsent =
      (.error "Transaction confirmation timed out", 20) := by
  have h := C1_amended_poll_budget Bulk.envAbsent Bulk.demoTransfer
    Bulk.demoKey "SIG" rfl (by simp [Bulk.demoKey]) ⟨"DEST", rfl⟩
    ⟨"HASH", rfl⟩ rfl rfl rfl (fun j => rfl) Cli.envOkAbsent (fun j => rfl)
    ⟨"PK", rfl, rfl⟩ ⟨"TO", rfl⟩ ⟨"HASH", rfl⟩ ⟨"SIG", rfl⟩
  exact ⟨h.1 33, h.2⟩

/-- C2: with an empty transfer list the bulk `main` divides the total
processing time by `len(config.Transfers) = 0` (line 244) and panics with
a divide-by-zero runtime error instead of producing an empty report; the
CLI variant does guard its average behind `!results.is_empty()`. -/
theorem C2_empty_list_divides_by_zero :
    Bulk.mainExit 0 [] = .error "runtime error: integer divide by zero" ∧
    Cli.avg_time [] = none := by
  exact ⟨rfl, rfl⟩

/-- C9: a private key that is valid base64 but decodes to only 10 bytes is
not rejected with an InvalidKey error: the bulk worker panics (the slice
`priv[32:]` taken while deriving the public key is out of range), killing
the process, and the geyser variant panics on `privateKeyBytes[:32]` the
same way. -/
theorem C9_wrong_length_key_crashes :
    Bulk.executeTransfer Bulk.envShortKey Bulk.demoTransfer 5 =
      Bulk.RunResult.crashed "runtime error: slice bounds out of range" ∧
    Geyser.keyPrep (List.replicate 10 0) =
      .error "runtime error: slice bounds out of range" := by
  exact ⟨rfl, rfl⟩

/-- C10: with at least one source wallet and an empty destination list,
`execute_transfers` evaluates the pairing fallback `to_wallets[0]` on the
empty list and panics with an index-out-of-bounds error instead of
producing TransferResults or a validation error. -/
theorem C10_empty_destinations_out_of_bounds (w : Cli.WalletInfo)
    (ws : List Cli.WalletInfo) (envs : Nat → Cli.Env) :
    Cli.execute_transfers envs { from_wallets := w :: ws, to_wallets := [] } =
      .error "index out of bounds: the len is 0 but the index is 0" := by
  unfold Cli.execute_transfers
  rw [Cli.buildTasks_empty_dest]

/-- C3 counterexample: an intent list of length N = 1 whose single source
wallet has no keypair path — `execute_transfers` skips it with `continue`
and produces 0 TransferResults, not 1. -/
theorem C3_counterexample_skipped_source :
    Cli.execute_transfers (fun _ => Cli.envOkConfirm) Cli.demoCfgSkip =
      .ok [] ∧
    Cli.demoCfgSkip.from_wallets.length = 1 := by
  exact ⟨rfl, rfl⟩

/-- C3 (amended): the bulk variant does produce exactly N results whenever
every worker sends one (no worker panics or polls forever); the CLI
variant, given a non-empty destination list, produces exactly one result
per source wallet that has a keypair path — sources without one are
silently skipped and contribute no result. -/
theorem C3_amended_result_counts (cenvs : Nat → Cli.Env)
    (cfg : Cli.WalletConfig) (hne : cfg.to_wallets ≠ [])
    (benvs : Nat → Bulk.Env) (trs : List Bulk.TransferInstruction)
    (fuel : Nat)
    (hterm : ∀ run ∈ Bulk.runAll benvs trs fuel,
      Bulk.RunResult.isDone run = true) :
    (∃ rs, Cli.execute_transfers cenvs cfg = .ok rs ∧
      rs.length =
        (cfg.from_wallets.filter (fun w => w.keypair_path.isSome)).length) ∧
    (∃ rs, Bulk.collectResults (Bulk.runAll benvs trs fuel) = some rs ∧
      rs.length = trs.length) := by
  constructor
  · obtain ⟨ts, hts, hlen⟩ :=
      Cli.buildTasks_length cfg.to_wallets hne cfg.from_wallets 0
    refine ⟨ts.map (Cli.runTask cenvs), ?_, ?_⟩
    · simp [Cli.execute_transfers, hts]
    · simp [hlen]
  · obtain ⟨rs, hrs, hlen⟩ := Bulk.collectResults_of_done _
      (fun run hrun => (Bulk.isDone_iff run).mp (hterm run hrun))
    exact ⟨rs, hrs, by rw [hlen, Bulk.runAll_length]⟩

/-- C3 witness: concretely, a config whose first source has a keypair path
and whose second does not yields a single CLI result, while two bulk
workers on a confirming gateway yield exactly two results. -/
theorem C3_witness :
    (∃ rs, Cli.execute_transfers (fun _ => Cli.envOkConfirm)
        { from_wallets := [{ address := "A", keypair_path := some "kp" },
                           { address := "B", keypair_path := none }],
          to_wallets := [{ address := "D", keypair_path := none }] } = .ok rs ∧
      rs.length = (List.filter (fun w => w.keypair_path.isSome)
        ([{ address := "A", keypair_path := some "kp" },
          { address := "B", keypair_path := none }] : List Cli.WalletInfo)).length) ∧
    (∃ rs, Bulk.collectResults (Bulk.runAll (fun _ => Bulk.envConfirm)
        [Bulk.demoTransfer, Bulk.demoTransfer] 5) = some rs ∧
      rs.length = [Bulk.demoTransfer, Bulk.demoTransfer].length) := by
  exact C3_amended_result_counts (fun _ => Cli.envOkConfirm)
    { from_wallets := [{ address := "A", keypair_path := some "kp" },
                       { address := "B", keypair_path := none }],
      to_wallets := [{ address := "D", keypair_path := none }] }
    (by simp)
    (fun _ => Bulk.envConfirm) [Bulk.demoTransfer, Bulk.demoTransfer] 5
    (by decide)

/-- C4 counterexample: a bulk worker whose blockhash fetch fails after a
10 ms network round trip returns a failure result whose `ProcessingTime`
is still the zero value, not the 10 ms of wall-clock time the worker
spent — the early `return` paths of `executeTransfer` never reach the
`result.ProcessingTime = time.Since(startTime)` assignment at line 169. -/
theorem C4_counterexample_failure_elapsed_zero :
    Bulk.executeTransfer Bulk.envBlockhashFail Bulk.demoTransfer 5 =
      Bulk.RunResult.done Bulk.bhFailResult [Bulk.NetCall.getRecentBlockhash] 10 ∧
    Bulk.bhFailResult.processingTime = 0 ∧ (0 : Nat) ≠ 10 := by
  exact ⟨rfl, rfl, by decide⟩

/-- C4 (amended): the elapsed field equals the wall-clock duration only for
the outcomes that break out of the poll loop (Confirmed and on-chain
Failed); every bulk result that fails before or during polling keeps a
zero processing time, and every CLI failure result carries the hard-coded
zero duration. -/
theorem C4_amended_elapsed_only_on_poll_exit (env : Bulk.Env)
    (tr : Bulk.TransferInstruction) (fuel : Nat) (r : Bulk.TransferResult)
    (calls : List Bulk.NetCall) (el : Nat)
    (h : Bulk.executeTransfer env tr fuel = Bulk.RunResult.done r calls el)
    (cenvs : Nat → Cli.Env) (cfg : Cli.WalletConfig)
    (crs : List Cli.TransferResult)
    (hcli : Cli.execute_transfers cenvs cfg = .ok crs) :
    ((r.status = "Confirmed" ∨ r.status = "Failed") → r.processingTime = el) ∧
    (r.error.isSome ∧ r.status ≠ "Failed" → r.processingTime = 0) ∧
    (∀ cr ∈ crs, cr.success = false → cr.processing_time = 0) := by
  have hspec := Bulk.executeTransfer_done_spec env tr fuel r calls el h
  refine ⟨?_, ?_, ?_⟩
  · intro hst
    rcases hspec with ⟨h1, _, h3⟩ | ⟨h1, _, h3⟩ | ⟨h1, _, h3⟩
    · exact h3
    · exact h3
    · rcases hst with hst | hst <;> rw [h1] at hst <;> simp at hst
  · rintro ⟨herr, hfail⟩
    rcases hspec with ⟨h1, h2, h3⟩ | ⟨h1, h2, h3⟩ | ⟨h1, h2, h3⟩
    · rw [h2] at herr
      simp at herr
    · exact absurd h1 hfail
    · exact h3
  · intro cr hcr hfail
    unfold Cli.execute_transfers at hcli
    cases hbt : Cli.buildTasks cfg.from_wallets cfg.to_wallets 0 with
    | error e => rw [hbt] at hcli; cases hcli
    | ok tasks =>
        rw [hbt] at hcli
        cases hcli
        obtain ⟨t, _, hcr2⟩ := List.mem_map.mp hcr
        rw [← hcr2] at hfail ⊢
        exact Cli.runTask_failure_time cenvs t hfail

/-- C4 witness: the blockhash-failure worker result instantiates the bulk
half and a failed CLI keypair read instantiates the CLI half. -/
theorem C4_witness :
    ((Bulk.bhFailResult.status = "Confirmed" ∨
        Bulk.bhFailResult.status = "Failed") →
      Bulk.bhFailResult.processingTime = 10) ∧
    (Bulk.bhFailResult.error.isSome ∧ Bulk.bhFailResult.status ≠ "Failed" →
      Bulk.bhFailResult.processingTime = 0) ∧
    (∀ cr ∈ [Cli.failedResult], cr.success = false →
      cr.processing_time = 0) := by
  exact C4_amended_elapsed_only_on_poll_exit Bulk.envBlockhashFail
    Bulk.demoTransfer 5 Bulk.bhFailResult [Bulk.NetCall.getRecentBlockhash] 10
    rfl (fun _ => Cli.envKeyFail) Cli.demoCfgOne [Cli.failedResult] rfl

/-- C5: the bulk code has no cancellation path at all — every result a
worker can ever send has status empty (pre-poll failure), Confirmed or
Failed, never a distinct Cancelled outcome; an operator interrupt simply
kills the process by default Go signal handling while the poll loop runs
on `context.Background()`. -/
theorem C5_no_cancelled_outcome (env : Bulk.Env)
    (tr : Bulk.TransferInstruction) (fuel : Nat) (r : Bulk.TransferResult)
    (calls : List Bulk.NetCall) (el : Nat)
    (h : Bulk.executeTransfer env tr fuel = Bulk.RunResult.done r calls el) :
    r.status ≠ "Cancelled" ∧
    (r.status = "" ∨ r.status = "Confirmed" ∨ r.status = "Failed") := by
  rcases Bulk.executeTransfer_done_spec env tr fuel r calls el h with
    ⟨h1, _, _⟩ | ⟨h1, _, _⟩ | ⟨h1, _, _⟩
  · rw [h1]
    exact ⟨by decide, Or.inr (Or.inl rfl)⟩
  · rw [h1]
    exact ⟨by decide, Or.inr (Or.inr rfl)⟩
  · rw [h1]
    exact ⟨by decide, Or.inl rfl⟩

/-- C5 witness: the confirming worker run instantiates the theorem. -/
theorem C5_witness :
    Bulk.confirmedResult.status ≠ "Cancelled" ∧
    (Bulk.confirmedResult.status = "" ∨
     Bulk.confirmedResult.status = "Confirmed" ∨
     Bulk.confirmedResult.status = "Failed") := by
  exact C5_no_cancelled_outcome Bulk.envConfirm Bulk.demoTransfer 5
    Bulk.confirmedResult
    [Bulk.NetCall.getRecentBlockhash, Bulk.NetCall.sendTransaction,
     Bulk.NetCall.getSignatureStatuses] 35 rfl

/-- C6: for an intent whose key has a malformed encoding, or whose key
decodes (to at least the 32 bytes the public-key derivation slices) but
whose destination address is malformed, the bulk worker sends a result
with the error set, zero-valued status and signature — a PrecursorFailed
outcome — and makes no network call at all, in particular no submission. -/
theorem C6_precursor_failure_no_submission (env : Bulk.Env)
    (tr : Bulk.TransferInstruction) (fuel : Nat)
    (h : (∃ e, env.decodeKeyResult = .error e) ∨
      ((∃ bs, env.decodeKeyResult = .ok bs ∧ 32 ≤ bs.length) ∧
        ∃ e, env.parseAddrResult = .error e)) :
    Bulk.precursorFailedNoNet (Bulk.executeTransfer env tr fuel) = true := by
  rcases h with ⟨e, he⟩ | ⟨⟨bs, hbs, hlen⟩, e, he⟩
  · simp [Bulk.executeTransfer, he, Bulk.precursorFailedNoNet, Bulk.initResult]
  · have hnlt : ¬ bs.length < 32 := Nat.not_lt.mpr hlen
    simp [Bulk.executeTransfer, hbs, hnlt, he, Bulk.precursorFailedNoNet,
      Bulk.initResult]

/-- C6 witness: a malformed base64 key and a malformed destination address
each produce a no-network precursor failure. -/
theorem C6_witness :
    Bulk.precursorFailedNoNet
      (Bulk.executeTransfer Bulk.envBadKey Bulk.demoTransfer 5) = true ∧
    Bulk.precursorFailedNoNet
      (Bulk.executeTransfer Bulk.envBadAddr Bulk.demoTransfer 5) = true := by
  exact ⟨C6_precursor_failure_no_submission Bulk.envBadKey Bulk.demoTransfer 5
      (Or.inl ⟨"illegal base64 data", rfl⟩),
    C6_precursor_failure_no_submission Bulk.envBadAddr Bulk.demoTransfer 5
      (Or.inr ⟨⟨Bulk.demoKey, rfl, by simp [Bulk.demoKey]⟩,
        "invalid base58 digit", rfl⟩)⟩

namespace Bulk

/-- For a non-empty transfer list the bulk main reaches its exit decision:
exit code 1 when any collected result has an error, 0 otherwise. -/
theorem mainExit_nonempty (n : Nat) (hn : n ≠ 0) (rs : List TransferResult) :
    mainExit n rs = .ok (if failCount rs > 0 then 1 else 0) := by
  unfold mainExit avgProcessingTime goDiv
  rw [if_neg hn]

end Bulk

/-- C7 counterexample: the multi-wallet CLI process exits with code 0 even
though its single transfer failed — `main` returns `Ok(())` after printing
the summary regardless of per-transfer outcomes. -/
theorem C7_counterexample_cli_exits_zero_on_failure :
    Cli.mainExit (fun _ => Cli.envKeyFail) Cli.demoCfgOne = .ok 0 ∧
    Cli.execute_transfers (fun _ => Cli.envKeyFail) Cli.demoCfgOne =
      .ok [Cli.failedResult] ∧
    Cli.failedResult.success = false := by
  exact ⟨rfl, rfl, rfl⟩

/-- C7 (amended): only the bulk variant, and only on a non-empty transfer
list, exits 0 exactly when every collected result is Confirmed (on an
empty list it panics on the average, claim C2); the multi-wallet CLI
always exits 0 once `execute_transfers` returns, failures included. -/
theorem C7_amended_exit_code (benvs : Nat → Bulk.Env)
    (trs : List Bulk.TransferInstruction) (fuel : Nat)
    (rs : List Bulk.TransferResult) (hne : trs ≠ [])
    (hcol : Bulk.collectResults (Bulk.runAll benvs trs fuel) = some rs)
    (cenvs : Nat → Cli.Env) (cfg : Cli.WalletConfig)
    (crs : List Cli.TransferResult)
    (hcli : Cli.execute_transfers cenvs cfg = .ok crs) :
    (Bulk.mainExit trs.length rs = .ok 0 ↔
      ∀ r ∈ rs, r.status = "Confirmed") ∧
    Cli.mainExit cenvs cfg = .ok 0 := by
  constructor
  · have hn : trs.length ≠ 0 := fun h0 => hne (List.length_eq_zero.mp h0)
    have herr : ∀ r ∈ rs, (r.error = none ↔ r.status = "Confirmed") := by
      intro r hr
      obtain ⟨c, e, hmem⟩ := Bulk.collectResults_mem _ _ hcol r hr
      obtain ⟨i, hi, hrun⟩ := Bulk.runAll_mem benvs trs fuel _ hmem
      exact Bulk.done_error_iff_confirmed _ _ _ _ _ _ hrun.symm
    rw [Bulk.mainExit_nonempty trs.length hn rs]
    constructor
    · intro h r hr
      have h0 : Bulk.failCount rs = 0 := by
        by_contra hfc
        rw [if_pos (Nat.pos_of_ne_zero hfc)] at h
        simp at h
      exact (herr r hr).mp ((Bulk.failCount_eq_zero_iff rs).mp h0 r hr)
    · intro hall
      have h0 : Bulk.failCount rs = 0 :=
        (Bulk.failCount_eq_zero_iff rs).mpr
          (fun r hr => (herr r hr).mpr (hall r hr))
      rw [h0]
      simp
  · unfold Cli.mainExit
    rw [hcli]

/-- C7 witness: one confirming bulk worker gives the exit-0 equivalence at
a concrete run, and a successful CLI run exits 0. -/
theorem C7_witness :
    (Bulk.mainExit [Bulk.demoTransfer].length [Bulk.confirmedResult] = .ok 0 ↔
      ∀ r ∈ [Bulk.confirmedResult], r.status = "Confirmed") ∧
    Cli.mainExit (fun _ => Cli.envOkConfirm) Cli.demoCfgOne = .ok 0 := by
  exact C7_amended_exit_code (fun _ => Bulk.envConfirm) [Bulk.demoTransfer] 5
    [Bulk.confirmedResult] (by simp) rfl (fun _ => Cli.envOkConfirm)
    Cli.demoCfgOne [Cli.successResult] rfl

/-- C8: in the multi-wallet CLI pairing, for any non-empty destination
list the i-th source pairs with the i-th destination when i is within the
list and with the first destination otherwise; concretely, three sources
against one destination all pair with that destination. -/
theorem C8_pairing_quirk (to_wallets : List Cli.WalletInfo) (i : Nat)
    (hne : to_wallets ≠ []) :
    Cli.pickDest to_wallets i =
      some (to_wallets.getD (if i < to_wallets.length then i else 0)
        { address := "", keypair_path := none }) ∧
    Except.map (List.map Cli.TransferResult.toAddr)
      (Cli.execute_transfers (fun _ => Cli.envOkConfirm) Cli.demoCfg3to1) =
      .ok ["D", "D", "D"] := by
  constructor
  · by_cases hi : i < to_wallets.length
    · rw [if_pos hi, Cli.pickDest_of_lt to_wallets i hi]
      simp [List.getD_eq_getElem?_getD, List.getElem?_eq_getElem, hi]
    · rw [if_neg hi, Cli.pickDest_of_ge to_wallets i hne (Nat.not_lt.mp hi)]
      cases to_wallets with
      | nil => exact absurd rfl hne
      | cons w ws => rfl
  · rfl

/-- C8 witness: a source index beyond a one-element destination list pairs
with that first destination, and the 3-sources-1-destination run shows the
same destination on all three results. -/
theorem C8_witness :
    Cli.pickDest [{ address := "D", keypair_path := none }] 5 =
      some { address := "D", keypair_path := none } ∧
    Except.map (List.map Cli.TransferResult.toAddr)
      (Cli.execute_transfers (fun _ => Cli.envOkConfirm) Cli.demoCfg3to1) =
      .ok ["D", "D", "D"] := by
  exact C8_pairing_quirk [{ address := "D", keypair_path := none }] 5 (by simp)
